import Mathlib

/-!
Shallow embedding of the CameraMonitor native video core
(`UsbVideoStreamer.h`, `UsbVideoStreamer.cpp`, `UsbVideoNativeLibrary.cpp`).

Machine integers are modelled as `Nat`; the one place where the fixed
width matters for behaviour is the 8-bit frame counter
`UsbVideoStreamerStats::currentFps` (a `uint8_t`), whose increment is
modelled with an explicit `% 256`.  Byte buffers (`std::vector<uint8_t>`)
are `List Nat`; time points (`steady_clock::time_point`) are `Nat`
nanosecond counts.  Calls into libuvc / libusb / libyuv / OpenGL are
external effects: their success or failure is supplied by a `UvcEnv`
record of outcomes, the MJPEG decoder is supplied as a function
`UvcFrame → Option (List Nat)` returning the decoded RGB24 bytes on
success, and `glTexImage2D` calls are reified as a returned list of
`TexUpload` records describing exactly what would be handed to the GL.
-/

namespace CameraMonitor

/-- Wire pixel formats (the subset of `uvc_frame_format` the code
distinguishes; everything else falls to the `default` branches, which we
represent with `unknown`).  The zero-initialised value
`uvc_frame_format{}` is `UVC_FRAME_FORMAT_UNKNOWN`, i.e. `unknown`. -/
inductive UvcFrameFormat where
  | unknown
  | nv12
  | yuyv
  | mjpeg
  deriving DecidableEq, Repr

/-- One second, in the nanosecond ticks of `steady_clock`. -/
def oneSecondNs : Nat := 1000000000

/-- `UsbVideoStreamerStats` (UsbVideoStreamer.h lines 32-66), restricted to
the fields `recordFrame` reads or writes plus the cumulative counters.
`fps` and `currentFps` are `uint8_t` in the source; `currentFps` is kept
below 256 by taking `% 256` at each increment, and `fps` only ever
receives a value of `currentFps`, so both stay in `uint8_t` range. -/
structure UsbVideoStreamerStats where
  total_bytes : Nat := 0
  frames : Nat := 0
  t0 : Nat
  fps : Nat := 0
  currentFps : Nat := 0
  deriving DecidableEq, Repr

/-- `UsbVideoStreamerStats::recordFrame` (UsbVideoStreamer.h lines 57-65):
`currentFps++` (8-bit, wraps), then if at least one second has elapsed
since `t0`, restart the window at `now`, publish `fps = currentFps` and
zero the window counter.  `now - t0` on `Nat` agrees with the signed
C++ duration comparison because a negative duration is `< 1s` and
truncated subtraction also yields `0 < oneSecondNs`. -/
def recordFrame (now : Nat) (s : UsbVideoStreamerStats) : UsbVideoStreamerStats :=
  let c := (s.currentFps + 1) % 256
  if oneSecondNs ≤ now - s.t0 then
    { s with t0 := now, fps := c, currentFps := 0 }
  else
    { s with currentFps := c }

/-- Feeding a sequence of frames, one `recordFrame` per timestamp. -/
def feedFrames (times : List Nat) (s : UsbVideoStreamerStats) : UsbVideoStreamerStats :=
  times.foldl (fun st t => recordFrame t st) s

/-- A raw frame as delivered by libuvc to the capture callback
(`uvc_frame_t`): dimensions, wire format tag and payload bytes. -/
structure UvcFrame where
  width : Nat
  height : Nat
  frame_format : UvcFrameFormat
  data : List Nat
  deriving DecidableEq, Repr

/-- Outcomes of the external libusb/libuvc calls the streamer makes; each
field is the success of one driver primitive. -/
structure UvcEnv where
  initOk : Bool := true
  wrapOk : Bool := true
  negotiateOk : Bool := true
  streamOpenOk : Bool := true
  streamStartOk : Bool := true
  streamStopOk : Bool := true
  deriving DecidableEq, Repr

/-- `std::vector<uint8_t>::resize`: shrinking truncates, growing keeps the
old contents and value-initialises (zero-fills) the new tail. -/
def vectorResize (v : List Nat) (n : Nat) : List Nat :=
  if n ≤ v.length then v.take n else v ++ List.replicate (n - v.length) 0

/-- `std::memcpy(dst.data(), src, n)` on byte vectors: the first `n` bytes
of `dst` are replaced by the first `n` bytes of `src`. -/
def memcpyBytes (dst src : List Nat) (n : Nat) : List Nat :=
  src.take n ++ dst.drop n

/-- `libyuv::RAWToARGB`: each 3-byte RAW pixel (memory order R,G,B)
becomes a 4-byte ARGB pixel (memory order B,G,R,A) with alpha 255. -/
def RAWToARGB : List Nat → List Nat
  | r :: g :: b :: rest => b :: g :: r :: 255 :: RAWToARGB rest
  | _ => []

/-- `libyuv::ARGBToABGR`: each 4-byte pixel has its first and third
channels swapped (B,G,R,A ↦ R,G,B,A). -/
def ARGBToABGR : List Nat → List Nat
  | c0 :: c1 :: c2 :: c3 :: rest => c2 :: c1 :: c0 :: c3 :: ARGBToABGR rest
  | _ => []

/-- The `UsbVideoStreamer` object state: pointer-valued members are
modelled by `Bool` flags recording non-nullness, the negotiated
(`captureFrame*`) and requested (`width_`/`height_`/…) parameters, the
stats block, and the mutex-guarded frame buffer set (`frameUpdated_`,
`plane0_`, `plane1_`, `rgbaBuffer_`). -/
structure UsbVideoStreamer where
  uvcContextInit : Bool := false
  deviceHandleOpen : Bool := false
  isStreamControlNegotiated : Bool := false
  streamHandleOpen : Bool := false
  deviceFD : Int
  width : Nat
  height : Nat
  fps : Nat
  uvcFrameFormat : UvcFrameFormat
  captureFrameWidth : Nat := 0
  captureFrameHeight : Nat := 0
  captureFrameFps : Nat := 0
  captureFrameFormat : UvcFrameFormat := .unknown
  stats : UsbVideoStreamerStats
  frameUpdated : Bool := false
  plane0 : List Nat := []
  plane1 : List Nat := []
  rgbaBuffer : List Nat := []
  deriving DecidableEq, Repr

/-- The `UsbVideoStreamer` constructor (UsbVideoStreamer.cpp lines 43-96):
initialise libuvc, wrap the fd, negotiate format/size/fps.  On successful
negotiation record the negotiated parameters, set
`isStreamControlNegotiated_` and pre-size the planes per format; on
failure leave `isStreamControlNegotiated_` false.  `t0` is the
construction time used to initialise the stats clock. -/
def UsbVideoStreamer.construct (env : UvcEnv) (deviceFD : Int)
    (width height fps : Nat) (uvcFrameFormat : UvcFrameFormat) (t0 : Nat) :
    UsbVideoStreamer :=
  let base : UsbVideoStreamer :=
    { deviceFD := deviceFD, width := width, height := height, fps := fps,
      uvcFrameFormat := uvcFrameFormat, stats := { t0 := t0 } }
  if !env.initOk then base
  else
    let base := { base with uvcContextInit := true }
    if !env.wrapOk then base
    else
      let base := { base with deviceHandleOpen := true }
      if env.negotiateOk then
        let s := { base with
          captureFrameWidth := width,
          captureFrameHeight := height,
          captureFrameFps := fps,
          captureFrameFormat := uvcFrameFormat,
          isStreamControlNegotiated := true }
        if uvcFrameFormat = .nv12 then
          { s with plane0 := vectorResize s.plane0 (width * height),
                   plane1 := vectorResize s.plane1 (width * height / 2) }
        else if uvcFrameFormat = .yuyv then
          { s with plane0 := vectorResize s.plane0 (width * height * 2) }
        else if uvcFrameFormat = .mjpeg then
          { s with plane0 := vectorResize s.plane0 (width * height * 4) }
        else s
      else base

/-- `UsbVideoStreamer::configureOutput` (lines 98-102): fails fast when
negotiation did not succeed; otherwise `uvc_stream_open_ctrl` sets
`streamHandle_` on success and the call's success is returned. -/
def UsbVideoStreamer.configureOutput (env : UvcEnv) (s : UsbVideoStreamer) :
    Bool × UsbVideoStreamer :=
  if !s.isStreamControlNegotiated then (false, s)
  else if env.streamOpenOk then (true, { s with streamHandleOpen := true })
  else (false, s)

/-- `UsbVideoStreamer::start` (lines 104-108): fails when no stream handle
is open; otherwise returns the success of `uvc_stream_start`.  No member
field is written. -/
def UsbVideoStreamer.start (env : UvcEnv) (s : UsbVideoStreamer) :
    Bool × UsbVideoStreamer :=
  if !s.streamHandleOpen then (false, s)
  else (env.streamStartOk, s)

/-- `UsbVideoStreamer::stop` (lines 110-113): fails when no stream handle
is open; otherwise returns the success of `uvc_stream_stop`.  No member
field is written. -/
def UsbVideoStreamer.stop (env : UvcEnv) (s : UsbVideoStreamer) :
    Bool × UsbVideoStreamer :=
  if !s.streamHandleOpen then (false, s)
  else (env.streamStopOk, s)

/-- `UsbVideoStreamer::getFormat` (lines 124-133): NV12 ↦ 1, YUYV ↦ 2,
everything else (including MJPEG and the zero-initialised unknown
format) ↦ 0. -/
def UsbVideoStreamer.getFormat (s : UsbVideoStreamer) : Int :=
  match s.captureFrameFormat with
  | .nv12 => 1
  | .yuyv => 2
  | _ => 0

/-- One `glTexImage2D` call as issued by `bindFrameToTextures`: the bound
texture id, the texture dimensions, the bytes per pixel of the chosen
internal format, and the bytes the GL reads from the source pointer
(`texWidth * texHeight * bytesPerPixel` of them). -/
structure TexUpload where
  tex : Int
  texWidth : Nat
  texHeight : Nat
  bytesPerPixel : Nat
  data : List Nat
  deriving DecidableEq, Repr

/-- Number of bytes a `glTexImage2D` call consumes from its pointer. -/
def TexUpload.byteCount (u : TexUpload) : Nat :=
  u.texWidth * u.texHeight * u.bytesPerPixel

/-- `UsbVideoStreamer::bindFrameToTextures` (lines 135-158): under the
frame mutex, return `false` with no upload when not dirty; otherwise
upload per format — NV12: an R8 `width×height` plane from `plane0_` and
an RG8 `width/2 × height/2` plane from `plane1_`; YUYV: one RGBA8
`width/2 × height` plane from `plane0_`; default (MJPEG/unknown): one
RGBA8 `width×height` plane from `rgbaBuffer_` — then clear the dirty
flag and return `true`. -/
def UsbVideoStreamer.bindFrameToTextures (texY texUV : Int) (s : UsbVideoStreamer) :
    Bool × List TexUpload × UsbVideoStreamer :=
  if !s.frameUpdated then (false, [], s)
  else
    let uploads :=
      if s.getFormat = 1 then
        [{ tex := texY, texWidth := s.width, texHeight := s.height,
           bytesPerPixel := 1, data := s.plane0.take (s.width * s.height * 1) },
         { tex := texUV, texWidth := s.width / 2, texHeight := s.height / 2,
           bytesPerPixel := 2,
           data := s.plane1.take (s.width / 2 * (s.height / 2) * 2) }]
      else if s.getFormat = 2 then
        [{ tex := texY, texWidth := s.width / 2, texHeight := s.height,
           bytesPerPixel := 4, data := s.plane0.take (s.width / 2 * s.height * 4) }]
      else
        [{ tex := texY, texWidth := s.width, texHeight := s.height,
           bytesPerPixel := 4, data := s.rgbaBuffer.take (s.width * s.height * 4) }]
    (true, uploads, { s with frameUpdated := false })

/-- `UsbVideoStreamer::captureFrameCallback` (lines 161-212), run under the
frame mutex.  `mjpegDecode` stands for the
`uvc_allocate_frame` + `uvc_mjpeg2rgb` pipeline: `none` when allocation
or decoding fails (both leave the buffers untouched), `some rgb` the
decoded RGB24 bytes written into the `width*height*3`-byte frame that
was allocated for them.  After the per-format switch the code
unconditionally sets `frameUpdated_ = true` and records the frame in the
stats. -/
def UsbVideoStreamer.captureFrameCallback
    (mjpegDecode : UvcFrame → Option (List Nat)) (now : Nat)
    (frame : UvcFrame) (self : UsbVideoStreamer) : UsbVideoStreamer :=
  let width := frame.width
  let height := frame.height
  let self := { self with width := width, height := height }
  let self :=
    if self.rgbaBuffer.length ≠ width * height * 4 then
      { self with rgbaBuffer := vectorResize self.rgbaBuffer (width * height * 4) }
    else self
  let self :=
    match frame.frame_format with
    | .nv12 =>
      let y_size := width * height
      let uv_size := y_size / 2
      let self :=
        if self.plane0.length ≠ y_size then
          { self with plane0 := vectorResize self.plane0 y_size }
        else self
      let self :=
        if self.plane1.length ≠ uv_size then
          { self with plane1 := vectorResize self.plane1 uv_size }
        else self
      { self with
        plane0 := memcpyBytes self.plane0 frame.data y_size,
        plane1 := memcpyBytes self.plane1 (frame.data.drop y_size) uv_size }
    | .yuyv =>
      let size := width * height * 2
      let self :=
        if self.plane0.length ≠ size then
          { self with plane0 := vectorResize self.plane0 size }
        else self
      { self with plane0 := memcpyBytes self.plane0 frame.data size }
    | .mjpeg =>
      match mjpegDecode frame with
      | some rgb =>
        let rgbData := vectorResize rgb (width * height * 3)
        { self with
          rgbaBuffer :=
            memcpyBytes self.rgbaBuffer (ARGBToABGR (RAWToARGB rgbData))
              (width * height * 4) }
      | none => self
    | _ => self
  { self with frameUpdated := true, stats := recordFrame now self.stats }

/-- The process-wide state of `UsbVideoNativeLibrary.cpp`: the video
streamer singleton `uvcStreamer_` and the preview window owner. -/
structure NativeLibState where
  uvcStreamer : Option UsbVideoStreamer := none
  previewWindowSet : Bool := false
  deriving DecidableEq, Repr

/-- `connectUsbVideoStreamingNative` (UsbVideoNativeLibrary.cpp lines
98-118): when no streamer exists, construct one, install the preview
window and return the result of `configureOutput`; when a streamer
already exists, return `false` and change nothing. -/
def connectUsbVideoStreamingNative (env : UvcEnv) (deviceFd : Int)
    (width height fps : Nat) (libuvcFrameFormat : UvcFrameFormat)
    (surfaceOk : Bool) (t0 : Nat) (st : NativeLibState) :
    Bool × NativeLibState :=
  match st.uvcStreamer with
  | none =>
    let streamer :=
      UsbVideoStreamer.construct env deviceFd width height fps libuvcFrameFormat t0
    let st := { st with previewWindowSet := surfaceOk }
    let res := streamer.configureOutput env
    (res.1, { st with uvcStreamer := some res.2 })
  | some _ => (false, st)

/-- The lifecycle scenario the testable properties in the spec exercise:
construct (negotiate), `configureOutput`, `start`, then one delivery of a raw
frame to the capture callback.  Returns the results of `configureOutput` and
`start` together with the final streamer state. -/
def streamScenario (env : UvcEnv) (fd : Int) (w h fps : Nat)
    (fmt : UvcFrameFormat) (t0 : Nat) (dec : UvcFrame → Option (List Nat))
    (now : Nat) (frame : UvcFrame) : Bool × Bool × UsbVideoStreamer :=
  let s0 := UsbVideoStreamer.construct env fd w h fps fmt t0
  let c := s0.configureOutput env
  let st := UsbVideoStreamer.start env c.2
  (c.1, st.1, UsbVideoStreamer.captureFrameCallback dec now frame st.2)

/-- A fresh stats block whose window starts at time 0, used by concrete test
runs below. -/
def testStats : UsbVideoStreamerStats := { t0 := 0 }

/-- A concrete 2×2 MJPEG streamer whose RGBA buffer holds a
previously-converted frame (16 bytes of value 3), used by concrete test runs
below. -/
def testStreamerMjpeg : UsbVideoStreamer :=
  { deviceFD := 0, width := 2, height := 2, fps := 30,
    uvcFrameFormat := .mjpeg, stats := testStats,
    rgbaBuffer := List.replicate 16 3 }

/-- `testStreamerMjpeg` with an unconsumed converted frame pending. -/
def testStreamerDirty : UsbVideoStreamer :=
  { testStreamerMjpeg with frameUpdated := true }

/-- The parameters recorded as authoritative when negotiation succeeds
(`captureFrameWidth_`, `captureFrameHeight_`, `captureFrameFps_`,
`captureFrameFormat_`). -/
def negotiatedParams (s : UsbVideoStreamer) : Nat × Nat × Nat × UvcFrameFormat :=
  (s.captureFrameWidth, s.captureFrameHeight, s.captureFrameFps, s.captureFrameFormat)

/-! ### Helper lemmas about the byte-buffer primitives -/

theorem vectorResize_length (v : List Nat) (n : Nat) :
    (vectorResize v n).length = n := by
  unfold vectorResize
  split <;> simp <;> omega

theorem memcpyBytes_length (dst src : List Nat) (n : Nat) :
    (memcpyBytes dst src n).length = min n src.length + (dst.length - n) := by
  simp [memcpyBytes]

theorem memcpyBytes_full (dst src : List Nat) (n : Nat)
    (hs : src.length = n) (hd : dst.length = n) :
    memcpyBytes dst src n = src := by
  subst hs
  unfold memcpyBytes
  rw [List.take_length, ← hd, List.drop_length, List.append_nil]

theorem RAWToARGB_length : ∀ l : List Nat, (RAWToARGB l).length = l.length / 3 * 4
  | [] => by simp [RAWToARGB]
  | [_] => by simp [RAWToARGB]
  | [_, _] => by simp [RAWToARGB]
  | _ :: _ :: _ :: rest => by
    rw [RAWToARGB]
    simp [RAWToARGB_length rest]
    omega

theorem ARGBToABGR_length : ∀ l : List Nat, (ARGBToABGR l).length = l.length / 4 * 4
  | [] => by simp [ARGBToABGR]
  | [_] => by simp [ARGBToABGR]
  | [_, _] => by simp [ARGBToABGR]
  | [_, _, _] => by simp [ARGBToABGR]
  | _ :: _ :: _ :: _ :: rest => by
    rw [ARGBToABGR]
    simp [ARGBToABGR_length rest]
    omega

theorem take_length_of_eq {l : List Nat} {n : Nat} (h : l.length = n) :
    l.take n = l := by
  subst h
  simp

theorem drop_length_of_eq {l : List Nat} {n : Nat} (h : l.length = n) :
    l.drop n = [] := by
  subst h
  simp

theorem vectorResize_nil (n : Nat) : vectorResize [] n = List.replicate n 0 := by
  unfold vectorResize
  split <;> simp_all

/-! ### Helper lemmas about the capture callback, per wire format -/

theorem captureFrameCallback_nv12_sizes (dec : UvcFrame → Option (List Nat))
    (now : Nat) (self : UsbVideoStreamer) (w h : Nat) (data : List Nat)
    (hd : data.length = w * h + w * h / 2) :
    (UsbVideoStreamer.captureFrameCallback dec now
        { width := w, height := h, frame_format := .nv12, data := data } self).frameUpdated
        = true ∧
    (UsbVideoStreamer.captureFrameCallback dec now
        { width := w, height := h, frame_format := .nv12, data := data } self).plane0.length
        = w * h ∧
    (UsbVideoStreamer.captureFrameCallback dec now
        { width := w, height := h, frame_format := .nv12, data := data } self).plane1.length
        = w * h / 2 ∧
    (UsbVideoStreamer.captureFrameCallback dec now
        { width := w, height := h, frame_format := .nv12, data := data } self).captureFrameFormat
        = self.captureFrameFormat := by
  simp only [UsbVideoStreamer.captureFrameCallback]
  split_ifs <;>
    simp_all [memcpyBytes_length, vectorResize_length]

theorem captureFrameCallback_yuyv_exact (dec : UvcFrame → Option (List Nat))
    (now : Nat) (self : UsbVideoStreamer) (w h : Nat) (data : List Nat)
    (hd : data.length = w * h * 2) :
    (UsbVideoStreamer.captureFrameCallback dec now
        { width := w, height := h, frame_format := .yuyv, data := data } self).frameUpdated
        = true ∧
    (UsbVideoStreamer.captureFrameCallback dec now
        { width := w, height := h, frame_format := .yuyv, data := data } self).plane0
        = data ∧
    (UsbVideoStreamer.captureFrameCallback dec now
        { width := w, height := h, frame_format := .yuyv, data := data } self).width
        = w ∧
    (UsbVideoStreamer.captureFrameCallback dec now
        { width := w, height := h, frame_format := .yuyv, data := data } self).height
        = h ∧
    (UsbVideoStreamer.captureFrameCallback dec now
        { width := w, height := h, frame_format := .yuyv, data := data } self).captureFrameFormat
        = self.captureFrameFormat := by
  simp only [UsbVideoStreamer.captureFrameCallback]
  split_ifs <;>
    simp_all [memcpyBytes_full (vectorResize self.plane0 (w * h * 2)) data (w * h * 2) hd
      (vectorResize_length self.plane0 (w * h * 2))]
  case _ h1 h2 =>
    exact memcpyBytes_full self.plane0 data (w * h * 2) hd (by omega)
  case _ h1 h2 =>
    exact memcpyBytes_full self.plane0 data (w * h * 2) hd (by omega)

theorem captureFrameCallback_mjpeg_decoded (dec : UvcFrame → Option (List Nat))
    (now : Nat) (self : UsbVideoStreamer) (w h : Nat) (data rgb : List Nat)
    (hdec : dec { width := w, height := h, frame_format := .mjpeg, data := data } = some rgb) :
    (UsbVideoStreamer.captureFrameCallback dec now
        { width := w, height := h, frame_format := .mjpeg, data := data } self).frameUpdated
        = true ∧
    (UsbVideoStreamer.captureFrameCallback dec now
        { width := w, height := h, frame_format := .mjpeg, data := data } self).rgbaBuffer.length
        = w * h * 4 ∧
    (UsbVideoStreamer.captureFrameCallback dec now
        { width := w, height := h, frame_format := .mjpeg, data := data } self).captureFrameFormat
        = self.captureFrameFormat := by
  simp only [UsbVideoStreamer.captureFrameCallback, hdec]
  split_ifs <;>
    simp_all [memcpyBytes_length, vectorResize_length, RAWToARGB_length, ARGBToABGR_length]

theorem captureFrameCallback_mjpeg_failed (dec : UvcFrame → Option (List Nat))
    (now : Nat) (self : UsbVideoStreamer) (w h : Nat) (data : List Nat)
    (hdec : dec { width := w, height := h, frame_format := .mjpeg, data := data } = none)
    (hlen : self.rgbaBuffer.length = w * h * 4) :
    UsbVideoStreamer.captureFrameCallback dec now
        { width := w, height := h, frame_format := .mjpeg, data := data } self =
      { self with width := w, height := h, frameUpdated := true,
                  stats := recordFrame now self.stats } := by
  simp only [UsbVideoStreamer.captureFrameCallback, hdec]
  split_ifs <;> simp_all

/-! ### Helper lemmas about the lifecycle scenario -/

theorem construct_negotiated (fd : Int) (w h fps : Nat) (fmt : UvcFrameFormat)
    (t0 : Nat) :
    (UsbVideoStreamer.construct {} fd w h fps fmt t0).isStreamControlNegotiated = true := by
  unfold UsbVideoStreamer.construct
  split_ifs <;> simp_all

theorem streamScenario_eq (fd : Int) (w h fps : Nat) (fmt : UvcFrameFormat)
    (t0 : Nat) (dec : UvcFrame → Option (List Nat)) (now : Nat) (frame : UvcFrame) :
    streamScenario {} fd w h fps fmt t0 dec now frame =
      (true, true, UsbVideoStreamer.captureFrameCallback dec now frame
        { UsbVideoStreamer.construct {} fd w h fps fmt t0 with streamHandleOpen := true }) := by
  unfold streamScenario UsbVideoStreamer.configureOutput UsbVideoStreamer.start
  simp [construct_negotiated]

theorem construct_format (fd : Int) (w h fps : Nat) (fmt : UvcFrameFormat) (t0 : Nat) :
    (UsbVideoStreamer.construct {} fd w h fps fmt t0).captureFrameFormat = fmt := by
  unfold UsbVideoStreamer.construct
  split_ifs <;> simp_all

theorem bindFrameToTextures_yuyv (s : UsbVideoStreamer) (texY texUV : Int)
    (hu : s.frameUpdated = true) (hf : s.captureFrameFormat = .yuyv) :
    s.bindFrameToTextures texY texUV =
      (true,
        [{ tex := texY, texWidth := s.width / 2, texHeight := s.height,
           bytesPerPixel := 4, data := s.plane0.take (s.width / 2 * s.height * 4) }],
        { s with frameUpdated := false }) := by
  simp [UsbVideoStreamer.bindFrameToTextures, UsbVideoStreamer.getFormat, hu, hf]

theorem byteCount_mk (t : Int) (w h b : Nat) (d : List Nat) :
    TexUpload.byteCount
      { tex := t, texWidth := w, texHeight := h, bytesPerPixel := b, data := d } =
      w * h * b := rfl

theorem texUploadData_mk (t : Int) (w h b : Nat) (d : List Nat) :
    TexUpload.data
      { tex := t, texWidth := w, texHeight := h, bytesPerPixel := b, data := d } = d := rfl

theorem yuyvScenarioUpload (t0 now : Nat) (dec : UvcFrame → Option (List Nat))
    (data : List Nat) (texA texB : Int) (hd : data.length = 1843200) :
    (streamScenario {} 3 1280 720 30 .yuyv t0 dec now
        { width := 1280, height := 720, frame_format := .yuyv, data := data }).1 = true ∧
    (streamScenario {} 3 1280 720 30 .yuyv t0 dec now
        { width := 1280, height := 720, frame_format := .yuyv, data := data }).2.1 = true ∧
    ((streamScenario {} 3 1280 720 30 .yuyv t0 dec now
        { width := 1280, height := 720, frame_format := .yuyv, data := data
          }).2.2.bindFrameToTextures texA texB).1 = true ∧
    ((streamScenario {} 3 1280 720 30 .yuyv t0 dec now
        { width := 1280, height := 720, frame_format := .yuyv, data := data
          }).2.2.bindFrameToTextures texA texB).2.1.map TexUpload.byteCount = [1843200] ∧
    ((streamScenario {} 3 1280 720 30 .yuyv t0 dec now
        { width := 1280, height := 720, frame_format := .yuyv, data := data
          }).2.2.bindFrameToTextures texA texB).2.1.map TexUpload.data = [data] := by
  obtain ⟨hu, hp0, hw, hh, hcf⟩ :=
    captureFrameCallback_yuyv_exact dec now
      { UsbVideoStreamer.construct {} 3 1280 720 30 .yuyv t0 with streamHandleOpen := true }
      1280 720 data (by omega)
  have hfmt : ({ UsbVideoStreamer.construct {} 3 1280 720 30 .yuyv t0 with
      streamHandleOpen := true } : UsbVideoStreamer).captureFrameFormat = .yuyv := by
    have h2 := construct_format 3 1280 720 30 .yuyv t0
    simpa using h2
  have hbind := bindFrameToTextures_yuyv
    (UsbVideoStreamer.captureFrameCallback dec now
      { width := 1280, height := 720, frame_format := .yuyv, data := data }
      { UsbVideoStreamer.construct {} 3 1280 720 30 .yuyv t0 with streamHandleOpen := true })
    texA texB hu (hcf.trans hfmt)
  rw [streamScenario_eq]
  refine ⟨rfl, rfl, ?_, ?_, ?_⟩
  · show ((UsbVideoStreamer.captureFrameCallback dec now
        { width := 1280, height := 720, frame_format := .yuyv, data := data }
        { UsbVideoStreamer.construct {} 3 1280 720 30 .yuyv t0 with
          streamHandleOpen := true }).bindFrameToTextures texA texB).1 = true
    rw [hbind]
  · show ((UsbVideoStreamer.captureFrameCallback dec now
        { width := 1280, height := 720, frame_format := .yuyv, data := data }
        { UsbVideoStreamer.construct {} 3 1280 720 30 .yuyv t0 with
          streamHandleOpen := true }).bindFrameToTextures texA texB).2.1.map
      TexUpload.byteCount = [1843200]
    rw [hbind, List.map_cons, List.map_nil, byteCount_mk, hw, hh]
  · show ((UsbVideoStreamer.captureFrameCallback dec now
        { width := 1280, height := 720, frame_format := .yuyv, data := data }
        { UsbVideoStreamer.construct {} 3 1280 720 30 .yuyv t0 with
          streamHandleOpen := true }).bindFrameToTextures texA texB).2.1.map
      TexUpload.data = [data]
    rw [hbind, List.map_cons, List.map_nil, texUploadData_mk, hp0, hw, hh]
    rw [take_length_of_eq (show data.length = 1280 / 2 * 720 * 4 by omega)]

/-! ### Helper lemmas about the stats tracker -/

theorem recordFrame_in_window (now : Nat) (s : UsbVideoStreamerStats)
    (h : now - s.t0 < oneSecondNs) :
    recordFrame now s = { s with currentFps := (s.currentFps + 1) % 256 } := by
  simp [recordFrame, Nat.not_le.mpr h]

theorem recordFrame_rollover (now : Nat) (s : UsbVideoStreamerStats)
    (h : oneSecondNs ≤ now - s.t0) :
    recordFrame now s =
      { s with t0 := now, fps := (s.currentFps + 1) % 256, currentFps := 0 } := by
  simp [recordFrame, h]

theorem feedFrames_in_window (ts : List Nat) (s : UsbVideoStreamerStats)
    (hc : s.currentFps < 256)
    (h : ∀ t ∈ ts, t - s.t0 < oneSecondNs) :
    feedFrames ts s = { s with currentFps := (s.currentFps + ts.length) % 256 } := by
  induction ts generalizing s with
  | nil =>
    simp [feedFrames, Nat.mod_eq_of_lt hc]
  | cons t ts ih =>
    have hmem : t - s.t0 < oneSecondNs := h t (by simp)
    have hrest : ∀ u ∈ ts, u - s.t0 < oneSecondNs := fun u hu => h u (by simp [hu])
    rw [show feedFrames (t :: ts) s = feedFrames ts (recordFrame t s) from rfl,
      recordFrame_in_window t s hmem,
      ih { s with currentFps := (s.currentFps + 1) % 256 }
        (Nat.mod_lt _ (by norm_num)) hrest]
    simp [UsbVideoStreamerStats.mk.injEq]
    omega

/-- Claim C3 (amended): when exactly `ts.length` frames are recorded inside the
1-second window that started at `s.t0`, the published fps does not change; the
value is published at the first `recordFrame` past the window boundary and then
equals the in-window count **plus the triggering frame itself**, reduced mod 256
(8-bit counter); the window counter resets and the window restarts at the
triggering time. -/
theorem c3_fps_rollover (s : UsbVideoStreamerStats) (ts : List Nat) (tf : Nat)
    (hc : s.currentFps < 256)
    (hin : ∀ t ∈ ts, t - s.t0 < oneSecondNs)
    (hout : oneSecondNs ≤ tf - s.t0) :
    (feedFrames ts s).fps = s.fps ∧
    recordFrame tf (feedFrames ts s) =
      { s with t0 := tf, fps := (s.currentFps + ts.length + 1) % 256,
               currentFps := 0 } := by
  rw [feedFrames_in_window ts s hc hin]
  refine ⟨rfl, ?_⟩
  rw [recordFrame_rollover tf { s with currentFps := (s.currentFps + ts.length) % 256 } hout]
  simp [UsbVideoStreamerStats.mk.injEq]

/-- Claim C3, counterexample: from a fresh stats block whose window starts at
time 0, feeding N = 2 frames inside the window and letting the clock pass the
boundary leaves the published fps at 0 (publication only ever happens inside
`recordFrame`), and the `recordFrame` call that does trigger the rollover
publishes 3, not 2 — the triggering frame is counted as well. -/
theorem c3_counterexample :
    (feedFrames [100, 200] ({ t0 := 0 } : UsbVideoStreamerStats)).fps = 0 ∧
    (recordFrame oneSecondNs
      (feedFrames [100, 200] ({ t0 := 0 } : UsbVideoStreamerStats))).fps = 3 ∧
    (recordFrame oneSecondNs
      (feedFrames [100, 200] ({ t0 := 0 } : UsbVideoStreamerStats))).fps ≠ 2 := by
  decide

/-- Witness for `c3_fps_rollover` at `s = testStats`, `ts = [100, 200]`,
`tf = oneSecondNs`. -/
theorem c3_witness :
    testStats.currentFps < 256 ∧
    (∀ t ∈ [(100 : Nat), 200], t - testStats.t0 < oneSecondNs) ∧
    oneSecondNs ≤ oneSecondNs - testStats.t0 ∧
    ((feedFrames [100, 200] testStats).fps = testStats.fps ∧
      recordFrame oneSecondNs (feedFrames [100, 200] testStats) =
        { testStats with
            t0 := oneSecondNs,
            fps := (testStats.currentFps + [(100 : Nat), 200].length + 1) % 256,
            currentFps := 0 }) :=
  ⟨by decide, by decide, by decide,
    c3_fps_rollover testStats [100, 200] oneSecondNs (by decide) (by decide) (by decide)⟩

/-- Claim C9 (amended): within a window (`now` strictly before the 1-second
boundary) the per-window counter is non-decreasing across a `recordFrame`
call **provided fewer than 255 frames are already in the window**: the counter
is a `uint8_t` and wraps from 255 to 0 on the 256th in-window frame. -/
theorem c9_counter_monotone (s : UsbVideoStreamerStats) (now : Nat)
    (hwin : now - s.t0 < oneSecondNs) (hlt : s.currentFps < 255) :
    s.currentFps ≤ (recordFrame now s).currentFps ∧
    (recordFrame now s).currentFps = s.currentFps + 1 := by
  rw [recordFrame_in_window now s hwin]
  have h : (s.currentFps + 1) % 256 = s.currentFps + 1 := Nat.mod_eq_of_lt (by omega)
  simp [h]

set_option maxRecDepth 8000 in
/-- Claim C9, counterexample: starting from a fresh stats block, 255
`recordFrame` calls inside the window bring the 8-bit counter to 255, and the
256th in-window call wraps it to 0 — strictly smaller than before the call, so
the counter is not monotonically non-decreasing within a window. -/
theorem c9_counterexample :
    (feedFrames (List.replicate 255 0) testStats).currentFps = 255 ∧
    (recordFrame 0 (feedFrames (List.replicate 255 0) testStats)).currentFps = 0 ∧
    (recordFrame 0 (feedFrames (List.replicate 255 0) testStats)).currentFps <
      (feedFrames (List.replicate 255 0) testStats).currentFps := by
  decide

/-- Witness for `c9_counter_monotone` at a fresh stats block and `now = 0`. -/
theorem c9_witness :
    ((0 : Nat) - testStats.t0 < oneSecondNs) ∧
    (testStats.currentFps < 255) ∧
    (testStats.currentFps ≤ (recordFrame 0 testStats).currentFps ∧
      (recordFrame 0 testStats).currentFps = testStats.currentFps + 1) :=
  ⟨by decide, by decide, c9_counter_monotone testStats 0 (by decide) (by decide)⟩

/-- Claim C1 (amended): an MJPEG frame whose decode fails leaves the converted
buffer (`rgbaBuffer_`) and both planes byte-for-byte unchanged — provided the
frame's dimensions match the buffer so no resize happens — but the callback
still sets the dirty flag `frameUpdated_` unconditionally, so the stale
previous frame is re-announced as new. -/
theorem c1_decode_failure_buffers (dec : UvcFrame → Option (List Nat))
    (now : Nat) (self : UsbVideoStreamer) (w h : Nat) (data : List Nat)
    (hdec : dec { width := w, height := h, frame_format := .mjpeg, data := data } = none)
    (hlen : self.rgbaBuffer.length = w * h * 4) :
    (UsbVideoStreamer.captureFrameCallback dec now
        { width := w, height := h, frame_format := .mjpeg, data := data } self).rgbaBuffer
        = self.rgbaBuffer ∧
    (UsbVideoStreamer.captureFrameCallback dec now
        { width := w, height := h, frame_format := .mjpeg, data := data } self).plane0
        = self.plane0 ∧
    (UsbVideoStreamer.captureFrameCallback dec now
        { width := w, height := h, frame_format := .mjpeg, data := data } self).plane1
        = self.plane1 ∧
    (UsbVideoStreamer.captureFrameCallback dec now
        { width := w, height := h, frame_format := .mjpeg, data := data } self).frameUpdated
        = true := by
  rw [captureFrameCallback_mjpeg_failed dec now self w h data hdec hlen]
  simp

/-- Claim C1, counterexample: a concrete 2×2 MJPEG stream receives one good
frame, the consumer binds it (clearing the dirty flag), and then a malformed
frame arrives whose decode fails.  The previous buffer contents are indeed
unchanged, but the callback sets `frameUpdated_` back to `true` — the claim
says the dirty flag is not set on decode failure, and the code sets it
unconditionally. -/
theorem c1_counterexample :
    (let s0 := UsbVideoStreamer.construct {} 0 2 2 30 .mjpeg 0
     let s1 := UsbVideoStreamer.captureFrameCallback
         (fun _ => some (List.replicate 12 7)) 10
         { width := 2, height := 2, frame_format := .mjpeg, data := [9, 9] } s0
     let s2 := (s1.bindFrameToTextures 5 6).2.2
     let s3 := UsbVideoStreamer.captureFrameCallback (fun _ => none) 20
         { width := 2, height := 2, frame_format := .mjpeg, data := [1, 2, 3] } s2
     s2.frameUpdated = false ∧ s3.rgbaBuffer = s2.rgbaBuffer ∧
       s3.plane0 = s2.plane0 ∧ s3.plane1 = s2.plane1 ∧ s3.frameUpdated = true) := by
  decide

/-- Witness for `c1_decode_failure_buffers` on a concrete 2×2 streamer whose
RGBA buffer holds a previously-converted frame. -/
theorem c1_witness :
    ((fun _ => none : UvcFrame → Option (List Nat))
        { width := 2, height := 2, frame_format := .mjpeg, data := [1, 2, 3] } = none) ∧
    (testStreamerMjpeg.rgbaBuffer.length = 2 * 2 * 4) ∧
    ((UsbVideoStreamer.captureFrameCallback (fun _ => none) 20
        { width := 2, height := 2, frame_format := .mjpeg, data := [1, 2, 3] }
        testStreamerMjpeg).rgbaBuffer = testStreamerMjpeg.rgbaBuffer ∧
      (UsbVideoStreamer.captureFrameCallback (fun _ => none) 20
        { width := 2, height := 2, frame_format := .mjpeg, data := [1, 2, 3] }
        testStreamerMjpeg).plane0 = testStreamerMjpeg.plane0 ∧
      (UsbVideoStreamer.captureFrameCallback (fun _ => none) 20
        { width := 2, height := 2, frame_format := .mjpeg, data := [1, 2, 3] }
        testStreamerMjpeg).plane1 = testStreamerMjpeg.plane1 ∧
      (UsbVideoStreamer.captureFrameCallback (fun _ => none) 20
        { width := 2, height := 2, frame_format := .mjpeg, data := [1, 2, 3] }
        testStreamerMjpeg).frameUpdated = true) :=
  ⟨rfl, by decide,
    c1_decode_failure_buffers (fun _ => none) 20 testStreamerMjpeg 2 2 [1, 2, 3]
      rfl (by decide)⟩

/-- Claim C2 (confirmed): for each supported wire format, after a successful
construct-negotiate + `configureOutput` + `start` (both report `true`),
delivering one well-formed raw frame of the negotiated dimensions sets the
dirty flag and produces the format-specific plane sizes — NV12: luma plane
`w*h`, chroma plane `w*h/2`; YUYV: single plane `w*h*2`; MJPEG: one 4-channel
plane `w*h*4`. -/
theorem c2_wire_format_sizing (fd : Int) (w h fps t0 now : Nat)
    (dec : UvcFrame → Option (List Nat)) (dataN dataY dataM rgb : List Nat)
    (hN : dataN.length = w * h + w * h / 2)
    (hY : dataY.length = w * h * 2)
    (hM : dec { width := w, height := h, frame_format := .mjpeg, data := dataM } = some rgb) :
    (let r := streamScenario {} fd w h fps .nv12 t0 dec now
        { width := w, height := h, frame_format := .nv12, data := dataN }
     r.1 = true ∧ r.2.1 = true ∧ r.2.2.frameUpdated = true ∧
       r.2.2.plane0.length = w * h ∧ r.2.2.plane1.length = w * h / 2) ∧
    (let r := streamScenario {} fd w h fps .yuyv t0 dec now
        { width := w, height := h, frame_format := .yuyv, data := dataY }
     r.1 = true ∧ r.2.1 = true ∧ r.2.2.frameUpdated = true ∧
       r.2.2.plane0.length = w * h * 2) ∧
    (let r := streamScenario {} fd w h fps .mjpeg t0 dec now
        { width := w, height := h, frame_format := .mjpeg, data := dataM }
     r.1 = true ∧ r.2.1 = true ∧ r.2.2.frameUpdated = true ∧
       r.2.2.rgbaBuffer.length = w * h * 4) := by
  simp only [streamScenario_eq]
  refine ⟨⟨trivial, trivial, ?_, ?_, ?_⟩, ⟨trivial, trivial, ?_, ?_⟩,
    ⟨trivial, trivial, ?_, ?_⟩⟩
  · exact (captureFrameCallback_nv12_sizes dec now _ w h dataN hN).1
  · exact (captureFrameCallback_nv12_sizes dec now _ w h dataN hN).2.1
  · exact (captureFrameCallback_nv12_sizes dec now _ w h dataN hN).2.2.1
  · exact (captureFrameCallback_yuyv_exact dec now _ w h dataY hY).1
  · rw [(captureFrameCallback_yuyv_exact dec now _ w h dataY hY).2.1]
    exact hY
  · exact (captureFrameCallback_mjpeg_decoded dec now _ w h dataM rgb hM).1
  · exact (captureFrameCallback_mjpeg_decoded dec now _ w h dataM rgb hM).2.1

/-- Witness for `c2_wire_format_sizing` at 2×2 frames. -/
theorem c2_witness :
    ((List.replicate 6 1 : List Nat).length = 2 * 2 + 2 * 2 / 2) ∧
    ((List.replicate 8 1 : List Nat).length = 2 * 2 * 2) ∧
    ((fun _ => some (List.replicate 12 7) : UvcFrame → Option (List Nat))
        { width := 2, height := 2, frame_format := .mjpeg, data := [9] }
        = some (List.replicate 12 7)) ∧
    ((let r := streamScenario {} 0 2 2 30 .nv12 0
          (fun _ => some (List.replicate 12 7)) 5
          { width := 2, height := 2, frame_format := .nv12, data := List.replicate 6 1 }
      r.1 = true ∧ r.2.1 = true ∧ r.2.2.frameUpdated = true ∧
        r.2.2.plane0.length = 2 * 2 ∧ r.2.2.plane1.length = 2 * 2 / 2) ∧
     (let r := streamScenario {} 0 2 2 30 .yuyv 0
          (fun _ => some (List.replicate 12 7)) 5
          { width := 2, height := 2, frame_format := .yuyv, data := List.replicate 8 1 }
      r.1 = true ∧ r.2.1 = true ∧ r.2.2.frameUpdated = true ∧
        r.2.2.plane0.length = 2 * 2 * 2) ∧
     (let r := streamScenario {} 0 2 2 30 .mjpeg 0
          (fun _ => some (List.replicate 12 7)) 5
          { width := 2, height := 2, frame_format := .mjpeg, data := [9] }
      r.1 = true ∧ r.2.1 = true ∧ r.2.2.frameUpdated = true ∧
        r.2.2.rgbaBuffer.length = 2 * 2 * 4)) :=
  ⟨by decide, by decide, rfl,
    c2_wire_format_sizing 0 2 2 30 0 5 (fun _ => some (List.replicate 12 7))
      (List.replicate 6 1) (List.replicate 8 1) [9] (List.replicate 12 7)
      (by decide) (by decide) rfl⟩

/-- Claim C4 (amended): a second `connect` call while a video streamer already
exists has no side effects on the native state, but it reports **failure**
(returns `false`), not success as the claim states. -/
theorem c4_second_connect (env : UvcEnv) (deviceFd : Int) (w h fps : Nat)
    (fmt : UvcFrameFormat) (surfaceOk : Bool) (t0 : Nat) (st : NativeLibState)
    (streamer : UsbVideoStreamer) (hs : st.uvcStreamer = some streamer) :
    connectUsbVideoStreamingNative env deviceFd w h fps fmt surfaceOk t0 st =
      (false, st) := by
  unfold connectUsbVideoStreamingNative
  rw [hs]

/-- Claim C4, counterexample: on a fresh native state, the first `connect`
succeeds; the second `connect` on the now-connected stream returns `false`
(the claim says it returns `true`), leaving the state unchanged. -/
theorem c4_counterexample :
    (let r1 := connectUsbVideoStreamingNative {} 3 2 2 30 .yuyv true 0 {}
     let r2 := connectUsbVideoStreamingNative {} 3 2 2 30 .yuyv true 0 r1.2
     r1.1 = true ∧ r2.1 = false ∧ r2.2 = r1.2) := by
  decide

/-- Witness for `c4_second_connect` at a concrete already-connected state. -/
theorem c4_witness :
    ({ uvcStreamer := some testStreamerMjpeg } : NativeLibState).uvcStreamer
      = some testStreamerMjpeg ∧
    connectUsbVideoStreamingNative {} 3 1280 720 30 .yuyv true 0
      { uvcStreamer := some testStreamerMjpeg } =
      (false, { uvcStreamer := some testStreamerMjpeg }) :=
  ⟨rfl, c4_second_connect {} 3 1280 720 30 .yuyv true 0
    { uvcStreamer := some testStreamerMjpeg } testStreamerMjpeg rfl⟩

/-- Claim C5 (amended): in the scenario connect(fd=3, 1280, 720, 30, YUYV) →
configureOutput → start → one 1280×720 YUYV raw frame of 1,843,200 bytes,
`bindFrameToTextures` returns `true` and uploads exactly one interleaved plane
of **1,843,200** bytes (1280/2 width × 720 height × 4 bytes per pixel), whose
bytes are exactly the converted plane — not 2,764,800 bytes as the claim
states (2,764,800 does not equal 1280/2 × 720 × 4). -/
theorem c5_yuyv_upload_bytes (t0 now : Nat) (dec : UvcFrame → Option (List Nat))
    (data : List Nat) (texA texB : Int) (hd : data.length = 1843200) :
    (streamScenario {} 3 1280 720 30 .yuyv t0 dec now
        { width := 1280, height := 720, frame_format := .yuyv, data := data }).1 = true ∧
    (streamScenario {} 3 1280 720 30 .yuyv t0 dec now
        { width := 1280, height := 720, frame_format := .yuyv, data := data }).2.1 = true ∧
    ((streamScenario {} 3 1280 720 30 .yuyv t0 dec now
        { width := 1280, height := 720, frame_format := .yuyv, data := data
          }).2.2.bindFrameToTextures texA texB).1 = true ∧
    ((streamScenario {} 3 1280 720 30 .yuyv t0 dec now
        { width := 1280, height := 720, frame_format := .yuyv, data := data
          }).2.2.bindFrameToTextures texA texB).2.1.map TexUpload.byteCount = [1843200] ∧
    ((streamScenario {} 3 1280 720 30 .yuyv t0 dec now
        { width := 1280, height := 720, frame_format := .yuyv, data := data
          }).2.2.bindFrameToTextures texA texB).2.1.map TexUpload.data = [data] :=
  yuyvScenarioUpload t0 now dec data texA texB hd

/-- Claim C5, counterexample: at the concrete frame of 1,843,200 zero bytes,
the single upload is 1,843,200 bytes (= 1280/2 × 720 × 4), which is not the
2,764,800 bytes asserted by the claim. -/
theorem c5_counterexample :
    (let r := streamScenario {} 3 1280 720 30 .yuyv 0 (fun _ => none) 7
        { width := 1280, height := 720, frame_format := .yuyv,
          data := List.replicate 1843200 0 }
     let b := r.2.2.bindFrameToTextures 8 9
     r.1 = true ∧ r.2.1 = true ∧ b.1 = true ∧
       b.2.1.map TexUpload.byteCount = [1843200] ∧
       b.2.1.map TexUpload.byteCount ≠ [2764800]) := by
  have h := yuyvScenarioUpload 0 7 (fun _ => none) (List.replicate 1843200 0) 8 9
    (List.length_replicate _ _)
  exact ⟨h.1, h.2.1, h.2.2.1, h.2.2.2.1, ne_of_eq_of_ne h.2.2.2.1 (by decide)⟩

/-- Witness for `c5_yuyv_upload_bytes` at the concrete all-zero frame. -/
theorem c5_witness :
    ((List.replicate 1843200 0 : List Nat).length = 1843200) ∧
    ((streamScenario {} 3 1280 720 30 .yuyv 0 (fun _ => none) 7
        { width := 1280, height := 720, frame_format := .yuyv,
          data := List.replicate 1843200 0 }).1 = true ∧
      (streamScenario {} 3 1280 720 30 .yuyv 0 (fun _ => none) 7
        { width := 1280, height := 720, frame_format := .yuyv,
          data := List.replicate 1843200 0 }).2.1 = true ∧
      ((streamScenario {} 3 1280 720 30 .yuyv 0 (fun _ => none) 7
        { width := 1280, height := 720, frame_format := .yuyv,
          data := List.replicate 1843200 0
          }).2.2.bindFrameToTextures 10 11).1 = true ∧
      ((streamScenario {} 3 1280 720 30 .yuyv 0 (fun _ => none) 7
        { width := 1280, height := 720, frame_format := .yuyv,
          data := List.replicate 1843200 0
          }).2.2.bindFrameToTextures 10 11).2.1.map TexUpload.byteCount = [1843200] ∧
      ((streamScenario {} 3 1280 720 30 .yuyv 0 (fun _ => none) 7
        { width := 1280, height := 720, frame_format := .yuyv,
          data := List.replicate 1843200 0
          }).2.2.bindFrameToTextures 10 11).2.1.map TexUpload.data
        = [List.replicate 1843200 0]) :=
  ⟨List.length_replicate _ _,
    c5_yuyv_upload_bytes 0 7 (fun _ => none) (List.replicate 1843200 0) 10 11
      (List.length_replicate _ _)⟩

/-- Claim C6 (confirmed): once negotiation has succeeded, none of
`configureOutput`, `start`, `stop`, the capture callback, or
`bindFrameToTextures` mutates the negotiated parameters
(`captureFrameWidth_`, `captureFrameHeight_`, `captureFrameFps_`,
`captureFrameFormat_`). -/
theorem c6_negotiated_immutable (env : UvcEnv) (s : UsbVideoStreamer)
    (dec : UvcFrame → Option (List Nat)) (now : Nat) (frame : UvcFrame)
    (texY texUV : Int) (hneg : s.isStreamControlNegotiated = true) :
    negotiatedParams (s.configureOutput env).2 = negotiatedParams s ∧
    negotiatedParams (UsbVideoStreamer.start env s).2 = negotiatedParams s ∧
    negotiatedParams (UsbVideoStreamer.stop env s).2 = negotiatedParams s ∧
    negotiatedParams (UsbVideoStreamer.captureFrameCallback dec now frame s)
      = negotiatedParams s ∧
    negotiatedParams (s.bindFrameToTextures texY texUV).2.2 = negotiatedParams s := by
  refine ⟨?_, ?_, ?_, ?_, ?_⟩
  · unfold UsbVideoStreamer.configureOutput negotiatedParams
    split_ifs <;> rfl
  · unfold UsbVideoStreamer.start negotiatedParams
    split_ifs <;> rfl
  · unfold UsbVideoStreamer.stop negotiatedParams
    split_ifs <;> rfl
  · obtain ⟨w, h, ff, d⟩ := frame
    cases ff
    case unknown =>
      unfold UsbVideoStreamer.captureFrameCallback negotiatedParams
      dsimp only
      split_ifs <;> rfl
    case nv12 =>
      unfold UsbVideoStreamer.captureFrameCallback negotiatedParams
      dsimp only
      split_ifs <;> rfl
    case yuyv =>
      unfold UsbVideoStreamer.captureFrameCallback negotiatedParams
      dsimp only
      split_ifs <;> rfl
    case mjpeg =>
      cases hm : dec { width := w, height := h, frame_format := .mjpeg, data := d } <;>
        (unfold UsbVideoStreamer.captureFrameCallback negotiatedParams;
          dsimp only;
          rw [hm];
          dsimp only) <;> split_ifs <;> rfl
  · unfold UsbVideoStreamer.bindFrameToTextures negotiatedParams
    dsimp only
    split_ifs <;> rfl

/-- Witness for `c6_negotiated_immutable` on a freshly negotiated 2×2 NV12
stream. -/
theorem c6_witness :
    (UsbVideoStreamer.construct {} 0 2 2 30 .nv12 0).isStreamControlNegotiated = true ∧
    (negotiatedParams
        ((UsbVideoStreamer.construct {} 0 2 2 30 .nv12 0).configureOutput {}).2 =
        negotiatedParams (UsbVideoStreamer.construct {} 0 2 2 30 .nv12 0) ∧
      negotiatedParams
        (UsbVideoStreamer.start {} (UsbVideoStreamer.construct {} 0 2 2 30 .nv12 0)).2 =
        negotiatedParams (UsbVideoStreamer.construct {} 0 2 2 30 .nv12 0) ∧
      negotiatedParams
        (UsbVideoStreamer.stop {} (UsbVideoStreamer.construct {} 0 2 2 30 .nv12 0)).2 =
        negotiatedParams (UsbVideoStreamer.construct {} 0 2 2 30 .nv12 0) ∧
      negotiatedParams
        (UsbVideoStreamer.captureFrameCallback (fun _ => none) 3
          { width := 2, height := 2, frame_format := .nv12, data := List.replicate 6 1 }
          (UsbVideoStreamer.construct {} 0 2 2 30 .nv12 0)) =
        negotiatedParams (UsbVideoStreamer.construct {} 0 2 2 30 .nv12 0) ∧
      negotiatedParams
        ((UsbVideoStreamer.construct {} 0 2 2 30 .nv12 0).bindFrameToTextures 5 6).2.2 =
        negotiatedParams (UsbVideoStreamer.construct {} 0 2 2 30 .nv12 0)) :=
  ⟨by decide,
    c6_negotiated_immutable {} (UsbVideoStreamer.construct {} 0 2 2 30 .nv12 0)
      (fun _ => none) 3
      { width := 2, height := 2, frame_format := .nv12, data := List.replicate 6 1 }
      5 6 (by decide)⟩

/-- Claim C7 (confirmed): with a converted frame pending, the first
`bindFrameToTextures` returns `true` and clears the dirty flag; a second call
with no intervening capture returns `false`, performs no upload, and leaves
the state unchanged. -/
theorem c7_bind_twice (s : UsbVideoStreamer) (texY texUV : Int)
    (h : s.frameUpdated = true) :
    (s.bindFrameToTextures texY texUV).1 = true ∧
    ((s.bindFrameToTextures texY texUV).2.2).frameUpdated = false ∧
    ((s.bindFrameToTextures texY texUV).2.2).bindFrameToTextures texY texUV =
      (false, [], (s.bindFrameToTextures texY texUV).2.2) := by
  simp [UsbVideoStreamer.bindFrameToTextures, h]

/-- Witness for `c7_bind_twice` on a concrete dirty streamer. -/
theorem c7_witness :
    testStreamerDirty.frameUpdated = true ∧
    ((testStreamerDirty.bindFrameToTextures 5 6).1 = true ∧
      ((testStreamerDirty.bindFrameToTextures 5 6).2.2).frameUpdated = false ∧
      ((testStreamerDirty.bindFrameToTextures 5 6).2.2).bindFrameToTextures 5 6 =
        (false, [], (testStreamerDirty.bindFrameToTextures 5 6).2.2)) :=
  ⟨rfl, c7_bind_twice testStreamerDirty 5 6 rfl⟩

/-- Claim C8 (confirmed): when negotiation fails during construction, the
stream stays un-negotiated with no stream handle (the `NegotiationFailed`
state), and `configureOutput`, `start`, and `stop` all return `false` without
changing the state — regardless of how the driver would answer later calls. -/
theorem c8_negotiation_failed (env envc : UvcEnv) (fd : Int) (w h fps t0 : Nat)
    (fmt : UvcFrameFormat) (hneg : env.negotiateOk = false) :
    (UsbVideoStreamer.construct env fd w h fps fmt t0).isStreamControlNegotiated = false ∧
    (UsbVideoStreamer.construct env fd w h fps fmt t0).streamHandleOpen = false ∧
    UsbVideoStreamer.configureOutput envc (UsbVideoStreamer.construct env fd w h fps fmt t0)
      = (false, UsbVideoStreamer.construct env fd w h fps fmt t0) ∧
    UsbVideoStreamer.start envc (UsbVideoStreamer.construct env fd w h fps fmt t0)
      = (false, UsbVideoStreamer.construct env fd w h fps fmt t0) ∧
    UsbVideoStreamer.stop envc (UsbVideoStreamer.construct env fd w h fps fmt t0)
      = (false, UsbVideoStreamer.construct env fd w h fps fmt t0) := by
  have h1 : (UsbVideoStreamer.construct env fd w h fps fmt t0).isStreamControlNegotiated
      = false := by
    unfold UsbVideoStreamer.construct
    split_ifs <;> simp_all
  have h2 : (UsbVideoStreamer.construct env fd w h fps fmt t0).streamHandleOpen = false := by
    unfold UsbVideoStreamer.construct
    split_ifs <;> simp_all
  refine ⟨h1, h2, ?_, ?_, ?_⟩
  · unfold UsbVideoStreamer.configureOutput
    simp [h1]
  · unfold UsbVideoStreamer.start
    simp [h2]
  · unfold UsbVideoStreamer.stop
    simp [h2]

/-- Witness for `c8_negotiation_failed` at a concrete failed negotiation. -/
theorem c8_witness :
    ({ negotiateOk := false } : UvcEnv).negotiateOk = false ∧
    ((UsbVideoStreamer.construct { negotiateOk := false } 1 2 2 30 .nv12 0
        ).isStreamControlNegotiated = false ∧
      (UsbVideoStreamer.construct { negotiateOk := false } 1 2 2 30 .nv12 0
        ).streamHandleOpen = false ∧
      UsbVideoStreamer.configureOutput {}
          (UsbVideoStreamer.construct { negotiateOk := false } 1 2 2 30 .nv12 0) =
        (false, UsbVideoStreamer.construct { negotiateOk := false } 1 2 2 30 .nv12 0) ∧
      UsbVideoStreamer.start {}
          (UsbVideoStreamer.construct { negotiateOk := false } 1 2 2 30 .nv12 0) =
        (false, UsbVideoStreamer.construct { negotiateOk := false } 1 2 2 30 .nv12 0) ∧
      UsbVideoStreamer.stop {}
          (UsbVideoStreamer.construct { negotiateOk := false } 1 2 2 30 .nv12 0) =
        (false, UsbVideoStreamer.construct { negotiateOk := false } 1 2 2 30 .nv12 0)) :=
  ⟨rfl, c8_negotiation_failed { negotiateOk := false } {} 1 2 2 30 0 .nv12 rfl⟩

/-- Claim C10 (confirmed): a stream successfully negotiated with the MJPEG
wire format reports `getFormat() = 0`, the same tag as a failed negotiation
(whose format field stays at its zero-initialised unknown value); at this
interface only NV12 (tag 1) and YUYV (tag 2) are distinguishable from the
default tag. -/
theorem c10_mjpeg_format_tag (env : UvcEnv) (fd : Int) (w h fps t0 : Nat)
    (hi : env.initOk = true) (hwr : env.wrapOk = true) (hn : env.negotiateOk = true) :
    (UsbVideoStreamer.construct env fd w h fps .mjpeg t0).isStreamControlNegotiated
      = true ∧
    (UsbVideoStreamer.construct env fd w h fps .mjpeg t0).getFormat = 0 ∧
    (UsbVideoStreamer.construct { env with negotiateOk := false } fd w h fps .mjpeg t0
      ).getFormat = 0 ∧
    (∀ s : UsbVideoStreamer, s.getFormat = 1 ↔ s.captureFrameFormat = .nv12) ∧
    (∀ s : UsbVideoStreamer, s.getFormat = 2 ↔ s.captureFrameFormat = .yuyv) := by
  refine ⟨?_, ?_, ?_, ?_, ?_⟩
  · unfold UsbVideoStreamer.construct
    simp [hi, hwr, hn]
  · unfold UsbVideoStreamer.construct UsbVideoStreamer.getFormat
    simp [hi, hwr, hn]
  · unfold UsbVideoStreamer.construct UsbVideoStreamer.getFormat
    simp [hi, hwr]
  · intro s
    unfold UsbVideoStreamer.getFormat
    cases hf : s.captureFrameFormat <;> simp
  · intro s
    unfold UsbVideoStreamer.getFormat
    cases hf : s.captureFrameFormat <;> simp

/-- Witness for `c10_mjpeg_format_tag` at a concrete successful MJPEG
negotiation. -/
theorem c10_witness :
    ({} : UvcEnv).initOk = true ∧ ({} : UvcEnv).wrapOk = true ∧
    ({} : UvcEnv).negotiateOk = true ∧
    ((UsbVideoStreamer.construct {} 0 2 2 30 .mjpeg 0).isStreamControlNegotiated = true ∧
      (UsbVideoStreamer.construct {} 0 2 2 30 .mjpeg 0).getFormat = 0 ∧
      (UsbVideoStreamer.construct { ({} : UvcEnv) with negotiateOk := false }
          0 2 2 30 .mjpeg 0).getFormat = 0 ∧
      (∀ s : UsbVideoStreamer, s.getFormat = 1 ↔ s.captureFrameFormat = .nv12) ∧
      (∀ s : UsbVideoStreamer, s.getFormat = 2 ↔ s.captureFrameFormat = .yuyv)) :=
  ⟨rfl, rfl, rfl, c10_mjpeg_format_tag {} 0 2 2 30 0 rfl rfl rfl⟩

end CameraMonitor
